import Mathlib

/- Shallow embedding of the i18n and render core of the mathisthomsen.de
   site: the language resolver and localizer shared by js/cv.js and the
   portfolio engine, the date formatting helpers, the portfolio case-study
   block render engine, the language-toggle state transitions, and the
   static/PDF-export server of server/export.js.  JavaScript strings are
   modelled as Lean String values; JS truthiness, property lookup and the
   logical-or fallback chains are made explicit.  All string operations are
   re-implemented structurally over List Char so that every definition
   evaluates by plain kernel reduction. -/

/- ── String primitives (JS semantics, kernel-reducible) ─────────────── -/

/-- One step of JS String.prototype.split with a single-character
separator, over the character list of the string. -/
def splitCharList (c : Char) : List Char → List (List Char)
  | [] => [[]]
  | x :: xs =>
    match splitCharList c xs with
    | h :: rest => if x == c then [] :: h :: rest else (x :: h) :: rest
    | [] => [[]]

/-- JS `s.split(c)` for a one-character separator `c`. -/
def strSplitChar (c : Char) (s : String) : List String :=
  (splitCharList c s.toList).map String.mk

/-- Predicate `leadsWith p s`: the character list `p` is an initial run of `s`. -/
def leadsWith : List Char → List Char → Bool
  | [], _ => true
  | _ :: _, [] => false
  | a :: as, b :: bs => (a == b) && leadsWith as bs

/-- JS `s.startsWith(p)`. -/
def strStartsWith (p s : String) : Bool :=
  leadsWith p.toList s.toList

/-- JS `s.endsWith(p)`. -/
def strEndsWith (p s : String) : Bool :=
  leadsWith p.toList.reverse s.toList.reverse

/-- JS `s.toLowerCase()` (ASCII range, which covers every language tag and
literal the code compares). -/
def strToLower (s : String) : String :=
  String.mk (s.toList.map Char.toLower)

/-- JS `s.toUpperCase()` (ASCII range). -/
def strToUpper (s : String) : String :=
  String.mk (s.toList.map Char.toUpper)

/-- JS `s.slice(0, n)` (the strings involved are plain BMP text, where
JS code units and Lean characters agree). -/
def strTake (n : Nat) (s : String) : String :=
  String.mk (s.toList.take n)

/-- Join a list of strings with a separator (JS `Array.prototype.join`). -/
def joinWith (sep : String) : List String → String
  | [] => ""
  | [x] => x
  | x :: y :: rest => x ++ sep ++ joinWith sep (y :: rest)

/-- JS `Array.prototype.includes` on an array of strings. -/
def listContainsStr (xs : List String) (s : String) : Bool :=
  match xs with
  | [] => false
  | x :: rest => (s == x) || listContainsStr rest s

/-- JS `Number(s)` restricted to unsigned decimal digit strings: the empty
string is 0, a digit string is its value, anything else is NaN (`none`). -/
def parseNatDigitsAux : List Char → Nat → Option Nat
  | [], acc => some acc
  | c :: cs, acc =>
    if c.isDigit then parseNatDigitsAux cs (acc * 10 + (c.toNat - 48))
    else Option.none

def parseNatDigits (s : String) : Option Nat :=
  parseNatDigitsAux s.toList 0

/-- JS regex test `/^\d+$/.test(s)`: `s` is non-empty and every character
is a decimal ASCII digit. -/
def isAllDigits (s : String) : Bool :=
  !(s == "") && s.toList.all Char.isDigit

/- ── JS values appearing in bilingual fields ────────────────────────── -/

/-- The JSON values a bilingual mapping can hold at a language key: a
string, or an array of strings (description bullet lists). -/
inductive JsVal where
  | vstr (s : String)
  | varr (items : List String)
deriving DecidableEq

/-- JS truthiness of such a value: the empty string is falsy, every other
string is truthy, an array (even an empty one) is always truthy. -/
def truthy : JsVal → Bool
  | JsVal.vstr s => !(s == "")
  | JsVal.varr _ => true

/-- Coercion of such a value to a string, as performed by assignment to
`innerHTML` / `textContent`: arrays stringify to their comma-join. -/
def jsShow : JsVal → String
  | JsVal.vstr s => s
  | JsVal.varr items => joinWith "," items

/-- A bilingual field as accepted by `t`: absent (null/undefined), a plain
string, or an object mapping language-code keys to values.  A JSON object
has unique keys, so lookup by first match is exact. -/
inductive LocField where
  | fnull
  | fstr (s : String)
  | fobj (entries : List (String × JsVal))
deriving DecidableEq

/-- JS property read `obj[k]`: `none` models `undefined`. -/
def jsIndex (m : List (String × JsVal)) (k : String) : Option JsVal :=
  match m with
  | [] => Option.none
  | (k', v) :: rest => if k == k' then some v else jsIndex rest k

/-- JS property read on a plain string-valued object literal. -/
def jsIndexStr (m : List (String × String)) (k : String) : Option String :=
  match m with
  | [] => Option.none
  | (k', v) :: rest => if k == k' then some v else jsIndexStr rest k

/- ── i18n core (js/cv.js lines 15-53, duplicated in the portfolio
      engine) ──────────────────────────────────────────────────────────── -/

def SUPPORTED_LANGS : List String := ["de", "en"]

def STORAGE_KEY : String := "cv-lang"

/-- The `de` / empty-string tail of the fallback chain
`field[lang] || field['de'] || ''` of `t`. -/
def lookupDe (m : List (String × JsVal)) : JsVal :=
  match jsIndex m "de" with
  | some v => if truthy v then v else JsVal.vstr ""
  | Option.none => JsVal.vstr ""

/-- Function `t(field, lang)` of cv.js lines 32-36.  The guard `if (!field)` also
catches the plain empty string, whose result `''` coincides with returning
it verbatim, so the `fstr` branch is written directly.  A JS object is
always truthy, so the `fobj` branch always evaluates the fallback chain. -/
def t (field : LocField) (lang : String) : JsVal :=
  match field with
  | LocField.fnull => JsVal.vstr ""
  | LocField.fstr s => JsVal.vstr s
  | LocField.fobj m =>
    match jsIndex m lang with
    | some v => if truthy v then v else lookupDe m
    | Option.none => lookupDe m

/-- JS truthiness of an optional string input (`qLang &&`, `stored &&`,
`if (!str)` and similar guards): absent and empty are falsy. -/
def jsTruthyOptStr : Option String → Bool
  | some s => !(s == "")
  | Option.none => false

/-- Fallback `x || ''` for an optional string (`navigator.language || ''`). -/
def jsOrEmpty : Option String → String
  | some s => s
  | Option.none => ""

/-- Expression `(navigator.language || '').toLowerCase().slice(0, 2)` from
`resolveInitialLang`. -/
def browserLang (navLang : Option String) : String :=
  strTake 2 (strToLower (jsOrEmpty navLang))

/-- Function `resolveInitialLang()` of cv.js lines 19-29, with its three ambient
inputs made explicit: `qLang` is the `lang` URL query parameter,
`stored` the persisted localStorage value, `navLang` the browser
language (`navigator.language` may itself be absent). -/
def resolveInitialLang (qLang stored navLang : Option String) : String :=
  if jsTruthyOptStr qLang && listContainsStr SUPPORTED_LANGS (jsOrEmpty qLang) then
    jsOrEmpty qLang
  else if jsTruthyOptStr stored && listContainsStr SUPPORTED_LANGS (jsOrEmpty stored) then
    jsOrEmpty stored
  else if listContainsStr SUPPORTED_LANGS (browserLang navLang) then
    browserLang navLang
  else "de"

/-- The spec side of claim C2 ("priority order (a) query parameter if
supported, (b) persisted preference if supported, (c) browser primary
subtag if supported, (d) hard default de"), written independently of the
code as a chain of supported-value picks. -/
def pickSupported : Option String → Option String
  | some l => if listContainsStr SUPPORTED_LANGS l then some l else Option.none
  | Option.none => Option.none

def resolveInitialLangSpec (qLang stored navLang : Option String) : String :=
  match pickSupported qLang with
  | some l => l
  | Option.none =>
    match pickSupported stored with
    | some l => l
    | Option.none =>
      match pickSupported (some (browserLang navLang)) with
      | some l => l
      | Option.none => "de"

/- ── Date formatting (cv.js lines 39-53) ────────────────────────────── -/

def DE_SHORT_MONTHS : List String :=
  ["Jan.", "Feb.", "März", "Apr.", "Mai", "Juni",
   "Juli", "Aug.", "Sept.", "Okt.", "Nov.", "Dez."]

def EN_SHORT_MONTHS : List String :=
  ["Jan", "Feb", "Mar", "Apr", "May", "Jun",
   "Jul", "Aug", "Sep", "Oct", "Nov", "Dec"]

/-- Modelled from the spec: the month branch of `formatDate` calls the
external `Date.prototype.toLocaleDateString` (locale `de-DE` or `en-GB`,
short month and numeric year), which is not code of this repository.
The tables above model the ICU short month names; out-of-range or
non-numeric months degrade to the JS invalid-date string.  No claim
inspects this branch's output beyond passing it through unchanged. -/
def localeMonthYear (lang year month : String) : String :=
  match parseNatDigits month with
  | some m =>
    match (if lang == "de" then DE_SHORT_MONTHS else EN_SHORT_MONTHS).get? (m - 1) with
    | some name => name ++ " " ++ year
    | Option.none => "Invalid Date"
  | Option.none => "Invalid Date"

/-- Function `formatDate(str, lang)` of cv.js lines 39-48.  `str` absent or empty is
falsy and yields the locale "present" token; a split with no second part
(or an empty one, also falsy) returns the year text unchanged. -/
def formatDate (str : Option String) (lang : String) : String :=
  match str with
  | Option.none => if lang == "de" then "heute" else "present"
  | some s =>
    if s == "" then (if lang == "de" then "heute" else "present")
    else
      match strSplitChar '-' s with
      | [] => ""
      | [year] => year
      | year :: month :: _ =>
        if month == "" then year else localeMonthYear lang year month

/-- Function `formatPeriod(start, end, lang)` of cv.js lines 51-53: the two resolved
dates joined by a spaced en dash. -/
def formatPeriod (start stop : Option String) (lang : String) : String :=
  formatDate start lang ++ " – " ++ formatDate stop lang

/- ── Static file server (server/export.js lines 43-75) ──────────────── -/

/-- What `serveStatic` does with a request before any filesystem I/O:
either it answers 403 Forbidden without touching a file, or it proceeds to
`fs.readFile` on the computed path (whose outcome — 200/404/500 — depends
on the filesystem, not on the request). -/
inductive StaticResult where
  | forbidden
  | readFileAt (filePath : String)
deriving DecidableEq

/-- Path split into components, dropping empty components, as
`path.join` does while normalizing. -/
def splitSegs (s : String) : List String :=
  (strSplitChar '/' s).filter (fun seg => !(seg == ""))

/-- Node `path.normalize` segment processing for an absolute path:
`.` disappears, `..` pops the previous component (and disappears at the
root), everything else is appended. -/
def normalizeSegs (segs : List String) : List String :=
  segs.foldl
    (fun acc seg =>
      if seg == "." then acc
      else if seg == ".." then acc.dropLast
      else acc ++ [seg])
    []

/-- Node `path.join(root, urlPath)` for an absolute `root`: concatenate
and normalize.  (Trailing-slash preservation is immaterial here: the
server appends `index.html` to any trailing slash first.) -/
def joinAbs (root urlPath : String) : String :=
  "/" ++ joinWith "/" (normalizeSegs (splitSegs root ++ splitSegs urlPath))

/-- Function `serveStatic(req, res)` of server/export.js lines 43-75, up to the
filesystem: strip the query string, complete a directory request with
`index.html`, join with the server root, and serve unless the textual
`startsWith(ROOT)` guard fails. -/
def serveStatic (root reqUrl : String) : StaticResult :=
  let urlPath0 := (strSplitChar '?' reqUrl).headD reqUrl
  let urlPath := if strEndsWith "/" urlPath0 then urlPath0 ++ "index.html" else urlPath0
  let filePath := joinAbs root urlPath
  if strStartsWith root filePath then StaticResult.readFileAt filePath
  else StaticResult.forbidden

/-- A request escapes the root when the normalized join of root and URL
path is not inside the root directory (the root's components are not a
componentwise prefix of the resolved path's components). -/
def segsLead : List String → List String → Bool
  | [], _ => true
  | _ :: _, [] => false
  | a :: as, b :: bs => (a == b) && segsLead as bs

def outsideRoot (root reqUrl : String) : Bool :=
  let urlPath0 := (strSplitChar '?' reqUrl).headD reqUrl
  let urlPath := if strEndsWith "/" urlPath0 then urlPath0 ++ "index.html" else urlPath0
  !(segsLead (splitSegs root) (normalizeSegs (splitSegs root ++ splitSegs urlPath)))

/- ── PDF export handler (server/export.js lines 79-141) ─────────────── -/

/-- The export language of `handlePdfExport`: the `lang` query parameter
when it is a supported code, `de` otherwise (including a missing
parameter, for which `searchParams.get` yields null and
`Array.includes(null)` is false). -/
def exportLang (q : Option String) : String :=
  match q with
  | some l => if listContainsStr SUPPORTED_LANGS l then l else "de"
  | Option.none => "de"

/-- The attachment filename built on the success path
(server/export.js line 136). -/
def exportFilename (lang : String) : String :=
  "CV_Mathis_Thomsen_" ++ strToUpper lang ++ ".pdf"

/-- The Content-Disposition header value of the 200 response
(server/export.js line 139). -/
def exportContentDisposition (q : Option String) : String :=
  "attachment; filename=\"" ++ exportFilename (exportLang q) ++ "\""

/- ── DOM fragments built by the portfolio render engine ─────────────── -/

/-- A DOM node as built by the engine's `el` helper and `appendChild`
calls: an element with tag, class attribute, further attributes, and
children, or a text node.  Document fragments are flattened into their
children at the (single) place one is appended. -/
inductive Node where
  | elem (tag : String) (className : String) (attrs : List (String × String)) (children : List Node)
  | text (s : String)

/-- Helper `el(tag, className, html)` of the portfolio engine: className `""`
models the absent argument (`if (className)` skips it, leaving no class),
and an absent `html` argument (`undefined`) leaves the element empty. -/
def el (tag : String) (className : String) (html : Option String) : Node :=
  Node.elem tag className []
    (match html with
     | some h => [Node.text h]
     | Option.none => [])

/-- The class attribute of a node (a text node has none). -/
def nodeClass : Node → String
  | Node.elem _ c _ _ => c
  | Node.text _ => ""

/-- The text of a node's first child when that child is a text node. -/
def nodeTextChild : Node → String
  | Node.elem _ _ _ (Node.text s :: _) => s
  | Node.elem _ _ _ _ => ""
  | Node.text _ => ""

/-- The texts of those direct children carrying a given class. -/
def childTextsWithClass (c : String) : Node → List String
  | Node.elem _ _ _ children =>
    (children.filter (fun n => nodeClass n == c)).map nodeTextChild
  | Node.text _ => []

/- ── Case-study content blocks (portfolio engine data model) ────────── -/

structure StatItem where
  value : LocField
  label : LocField

structure PhaseItem where
  phase : LocField
  wip : Bool
  title : LocField
  description : LocField

structure MethodItem where
  icon : String
  title : LocField
  description : LocField

structure SlotItem where
  caption : LocField

structure TakeawayItem where
  title : LocField
  description : LocField

/-- A content block of a case-study section list.  The eight known
variants carry their payloads (absent payload arrays are the empty list,
matching the `(block.xs || [])` guards); `other ty` stands for a block
whose `type` string `ty` lies outside the known set and therefore hits
the `default` arm of the dispatch switch. -/
inductive Block where
  | stat_bar (stats : List StatItem)
  | text (content : LocField)
  | timeline (phases : List PhaseItem)
  | method_grid (methods : List MethodItem)
  | insight (content : LocField)
  | challenge_approach_outcome (challenge approach outcome : LocField)
  | visual_slots (slots : List SlotItem)
  | key_takeaways (takeaways : List TakeawayItem)
  | other (ty : String)

/-- The `type` strings handled by the dispatch switch of `renderBlock`. -/
def knownBlockTypes : List String :=
  ["stat_bar", "text", "timeline", "method_grid", "insight",
   "challenge_approach_outcome", "visual_slots", "key_takeaways"]

/-- A case-study record of portfolio.json.  Booleans model the JS
truthiness checks on the optional `confidential` / `wip` flags. -/
structure Project where
  slug : String
  title : LocField
  teaser : LocField
  year : LocField
  duration : LocField
  client : LocField
  role : LocField
  tags : List String
  confidential : Bool
  wip : Bool
  url : Option String
  sections : List Block

/- ── Block renderers (portfolio engine) ─────────────────────────────── -/

/-- The `ICONS` identifier → inline-SVG table of the method grid.  The
SVG markup bodies are abbreviated to stable placeholders; no claim (and
no control flow) inspects the markup text, only the lookup's
defined/undefined outcome (`ICONS[method.icon] || ''`). -/
def ICONS : List (String × String) :=
  [("cards", "<svg cards>"), ("layers", "<svg layers>"), ("tree", "<svg tree>"),
   ("network", "<svg network>"), ("ai", "<svg ai>"), ("database", "<svg database>"),
   ("code", "<svg code>"), ("research", "<svg research>"), ("chart", "<svg chart>"),
   ("eye", "<svg eye>"), ("split", "<svg split>"), ("shield", "<svg shield>"),
   ("balance", "<svg balance>"), ("cart", "<svg cart>"), ("refresh", "<svg refresh>"),
   ("users", "<svg users>"), ("grid", "<svg grid>")]

def renderStat (lang : String) (st : StatItem) : Node :=
  Node.elem "div" "cs-stat" []
    [el "span" "cs-stat__value" (some (jsShow (t st.value lang))),
     el "span" "cs-stat__label" (some (jsShow (t st.label lang)))]

def renderStatBar (lang : String) (stats : List StatItem) : Node :=
  Node.elem "div" "cs-stat-bar" [] (stats.map (renderStat lang))

def renderText (lang : String) (content : LocField) : Node :=
  el "p" "cs-text" (some (jsShow (t content lang)))

/-- One phase entry of the process timeline (the body of the
`forEach` in `renderTimeline`).  `rawLabel` is the localized phase
label; a purely numeric label is prefixed with `Phase `, and a phase
with `wip === true` gets the localized in-progress badge. -/
def renderPhaseEntry (lang : String) (phase : PhaseItem) : Node :=
  Node.elem "div"
    (if phase.wip then "cs-timeline__phase-entry cs-timeline__phase-entry--wip"
     else "cs-timeline__phase-entry")
    []
    ([el "p" "cs-timeline__phase-num"
        (some (if isAllDigits (jsShow (t phase.phase lang))
               then "Phase " ++ jsShow (t phase.phase lang)
               else jsShow (t phase.phase lang)))]
     ++ (if phase.wip then
           [el "span" "cs-timeline__phase-wip-badge"
              (some (if lang == "de" then "In Arbeit" else "In Progress"))]
         else [])
     ++ [el "h3" "cs-timeline__phase-title" (some (jsShow (t phase.title lang))),
         el "p" "cs-timeline__phase-desc" (some (jsShow (t phase.description lang)))])

def renderTimeline (lang : String) (phases : List PhaseItem) : Node :=
  Node.elem "div" "" []
    [el "p" "cs-section-label" (some (if lang == "de" then "Prozess" else "Process")),
     Node.elem "div" "cs-timeline" [] (phases.map (renderPhaseEntry lang))]

def renderMethodCard (lang : String) (m : MethodItem) : Node :=
  Node.elem "div" "cs-method" []
    [Node.elem "div" "cs-method__icon" []
       [Node.text (jsOrEmpty (jsIndexStr ICONS m.icon))],
     el "h3" "cs-method__title" (some (jsShow (t m.title lang))),
     el "p" "cs-method__desc" (some (jsShow (t m.description lang)))]

def renderMethodGrid (lang : String) (methods : List MethodItem) : Node :=
  Node.elem "div" "" []
    [el "p" "cs-section-label" (some (if lang == "de" then "Methoden" else "Methods")),
     Node.elem "div" "cs-method-grid" [] (methods.map (renderMethodCard lang))]

def renderInsight (lang : String) (content : LocField) : Node :=
  Node.elem "aside" "cs-insight" []
    [el "p" "cs-insight__text" (some (jsShow (t content lang)))]

/-- Truthiness of a field value, as tested by `if (!block[key]) return`
in the challenge/approach/outcome renderer. -/
def fieldTruthy : LocField → Bool
  | LocField.fnull => false
  | LocField.fstr s => !(s == "")
  | LocField.fobj _ => true

/-- One labelled item of the challenge/approach/outcome block; a falsy
payload is skipped.  The German/English label is read by direct index
`LABELS[key][activeLang]` — an unexpected language yields `undefined` and
therefore an empty label element. -/
def renderCaoItem (lang labelDe labelEn : String) (f : LocField) : List Node :=
  if fieldTruthy f then
    [Node.elem "div" "cs-outcome__item" []
       [el "p" "cs-outcome__label" (jsIndexStr [("de", labelDe), ("en", labelEn)] lang),
        el "p" "cs-outcome__text" (some (jsShow (t f lang)))]]
  else []

def renderChallengeApproachOutcome (lang : String) (challenge approach outcome : LocField) : Node :=
  Node.elem "div" "cs-outcome" []
    (renderCaoItem lang "Challenge" "Challenge" challenge
     ++ renderCaoItem lang "Vorgehen" "Approach" approach
     ++ renderCaoItem lang "Ergebnis" "Outcome" outcome)

/-- The placeholder image SVG of a visual slot (markup abbreviated; never
inspected). -/
def VISUAL_SLOT_SVG : String := "<svg image-placeholder>"

def renderVisualSlot (lang : String) (s : SlotItem) : Node :=
  Node.elem "div" "cs-visual-slot" []
    [Node.elem "div" "cs-visual-slot__area" [] [Node.text VISUAL_SLOT_SVG],
     el "p" "cs-visual-slot__caption" (some (jsShow (t s.caption lang)))]

def renderVisualSlots (lang : String) (slots : List SlotItem) : Node :=
  Node.elem "div" "" []
    [el "p" "cs-section-label" (some "Visuals"),
     Node.elem "div" "cs-visual-slots" [] (slots.map (renderVisualSlot lang))]

def renderTakeaway (lang : String) (item : TakeawayItem) : Node :=
  Node.elem "div" "cs-key-takeaway" []
    [el "h3" "cs-key-takeaway__title" (some (jsShow (t item.title lang))),
     el "p" "cs-key-takeaway__desc" (some (jsShow (t item.description lang)))]

def renderKeyTakeaways (lang : String) (takeaways : List TakeawayItem) : Node :=
  Node.elem "div" "" []
    [el "p" "cs-section-label" (some "Key Takeaways"),
     Node.elem "div" "cs-key-takeaways" [] (takeaways.map (renderTakeaway lang))]

/-- The confidentiality disclaimer block (`renderDisclaimer`,
portfolio engine). -/
def renderDisclaimer (lang : String) : Node :=
  Node.elem "aside" "cs-disclaimer" []
    [el "p" "cs-disclaimer__label"
       (some (if lang == "de" then "Vertraulich" else "Confidential")),
     el "p" "cs-disclaimer__text"
       (some (if lang == "de"
              then "Aus Vertraulichkeitsgründen sind Details und Dokumentation dieses Projekts nicht öffentlich verfügbar. Ich teile sie gerne im persönlichen Gespräch."
              else "Due to confidentiality, detailed documentation of this project is not publicly available. I\x27m happy to walk you through it in a personal conversation."))]

/-- The type-dispatch table `renderBlock` of the portfolio engine: each
known variant renders, an unknown type string hits the `default` arm and
yields null. -/
def renderBlock (lang : String) (b : Block) : Option Node :=
  match b with
  | Block.stat_bar stats => some (renderStatBar lang stats)
  | Block.text content => some (renderText lang content)
  | Block.timeline phases => some (renderTimeline lang phases)
  | Block.method_grid methods => some (renderMethodGrid lang methods)
  | Block.insight content => some (renderInsight lang content)
  | Block.challenge_approach_outcome c a o => some (renderChallengeApproachOutcome lang c a o)
  | Block.visual_slots slots => some (renderVisualSlots lang slots)
  | Block.key_takeaways items => some (renderKeyTakeaways lang items)
  | Block.other _ => Option.none

/-- The `case-study__block` wrapper with its reveal tag, put around every
rendered block by `renderDetail`. -/
def wrapBlock (n : Node) : Node :=
  Node.elem "div" "case-study__block" [("data-reveal", "")] [n]

/-- The authored-content part of the detail body: `renderDetail`'s
`forEach` over `project.sections || []`, dropping blocks whose renderer
returned null and wrapping the rest (lines 928-935). -/
def renderSections (lang : String) (blocks : List Block) : List Node :=
  blocks.filterMap (fun b => (renderBlock lang b).map wrapBlock)

/-- The children of the detail page's `bodyInner` container: the authored
blocks in source order, then — for a confidential project only — the
synthesized disclaimer block (lines 928-943). -/
def renderDetailBody (proj : Project) (lang : String) : List Node :=
  renderSections lang proj.sections
  ++ (if proj.confidential then [wrapBlock (renderDisclaimer lang)] else [])

/-- Recognize a disclaimer node (an element with the `cs-disclaimer`
class). -/
def isDisclaimerNode : Node → Bool
  | Node.elem _ c _ _ => c == "cs-disclaimer"
  | Node.text _ => false

/-- Recognize a wrapped disclaimer among the body's children. -/
def isDisclaimerWrap : Node → Bool
  | Node.elem _ _ _ children => children.any isDisclaimerNode
  | Node.text _ => false

/- ── Language toggle state transitions (cv.js lines 415-446, portfolio
      engine `setLang`) ─────────────────────────────────────────────────── -/

/-- A language toggle button's observable DOM state. -/
structure ToggleBtn where
  dataLang : String
  ariaPressed : String
  ariaLabel : String
deriving DecidableEq

/-- The observable page state `setLang` of cv.js acts on.  `storedLang`
is the value under the shared `cv-lang` localStorage key; `renderedLang`
records the language of the last full `renderAll` pass — the CV document
is immutable after fetch, so the rendered DOM is a pure function of that
language; `events` is the trace of dispatched custom events. -/
structure CvPageState where
  activeLang : String
  storedLang : Option String
  docLang : String
  toggleButtons : List ToggleBtn
  cvDataLoaded : Bool
  renderedLang : Option String
  events : List String
deriving DecidableEq

/-- The per-button update of cv.js `setLang`: pressed state and
aria-label follow the new language. -/
def updateCvToggleBtn (lang : String) (btn : ToggleBtn) : ToggleBtn :=
  { btn with
    ariaPressed := if btn.dataLang == lang then "true" else "false"
    ariaLabel :=
      if btn.dataLang == "de" then
        (if lang == "de" then "Deutsch aktiv" else "Auf Deutsch wechseln")
      else
        (if lang == "en" then "English active" else "Switch to English") }

/-- Function `setLang(lang)` of cv.js lines 415-446.  Unsupported codes return
before any effect.  Otherwise: active language, persistence, html[lang],
toggle buttons, a full re-render plus `cv-rendered` event when data is
loaded, and a `lang-changed` event when the toggle container exists. -/
def setLangCv (st : CvPageState) (toggleExists : Bool) (lang : String) : CvPageState :=
  if !(listContainsStr SUPPORTED_LANGS lang) then st
  else
    let st1 : CvPageState :=
      { st with
        activeLang := lang
        storedLang := some lang
        docLang := lang
        toggleButtons := st.toggleButtons.map (updateCvToggleBtn lang) }
    let st2 : CvPageState :=
      if st1.cvDataLoaded then
        { st1 with renderedLang := some lang, events := st1.events ++ ["cv-rendered"] }
      else st1
    if toggleExists then { st2 with events := st2.events ++ ["lang-changed"] } else st2

/-- The observable page state of the portfolio engine's `setLang`:
mount-node presence selects which of overview/detail is re-rendered, and
`portfolio-rendered` is dispatched once whenever data is loaded. -/
structure PortfolioPageState where
  activeLang : String
  storedLang : Option String
  docLang : String
  toggleButtons : List ToggleBtn
  dataLoaded : Bool
  overviewMounted : Bool
  detailMounted : Bool
  renderedOverviewLang : Option String
  renderedDetailLang : Option String
  events : List String
deriving DecidableEq

/-- The per-button update of the portfolio `setLang`: only the pressed
state is rewritten. -/
def updatePortfolioToggleBtn (lang : String) (btn : ToggleBtn) : ToggleBtn :=
  { btn with ariaPressed := if btn.dataLang == lang then "true" else "false" }

/-- Function `setLang(lang)` of the portfolio engine (lines 1130-1149 of the
concatenated source).  Unsupported codes return before any effect. -/
def setLangPortfolio (st : PortfolioPageState) (lang : String) : PortfolioPageState :=
  if !(listContainsStr SUPPORTED_LANGS lang) then st
  else
    let st1 : PortfolioPageState :=
      { st with
        activeLang := lang
        storedLang := some lang
        docLang := lang
        toggleButtons := st.toggleButtons.map (updatePortfolioToggleBtn lang) }
    if st1.dataLoaded then
      let st2 : PortfolioPageState :=
        if st1.overviewMounted then { st1 with renderedOverviewLang := some lang } else st1
      let st3 : PortfolioPageState :=
        if st2.detailMounted then { st2 with renderedDetailLang := some lang } else st2
      { st3 with events := st3.events ++ ["portfolio-rendered"] }
    else st1

/- ════════════════════════════════════════════════════════════════════ -/
/- Theorems                                                             -/
/- ════════════════════════════════════════════════════════════════════ -/

/-- Claim C1 (counterexample): the claim as stated fails — `en` is a
supported code and the bilingual mapping contains the key `en` (holding
the empty string), yet `t` does not return that value: the empty string
is falsy in the chain `field[lang] || field['de'] || ''`, so the `de`
value is returned instead. -/
theorem t_supported_key_counterexample :
    listContainsStr SUPPORTED_LANGS "en" = true
    ∧ jsIndex [("en", JsVal.vstr ""), ("de", JsVal.vstr "Hallo")] "en" = some (JsVal.vstr "")
    ∧ t (LocField.fobj [("en", JsVal.vstr ""), ("de", JsVal.vstr "Hallo")]) "en" ≠ JsVal.vstr "" := by
  decide

/-- Claim C1 (corrected): for every supported language code L and every
bilingual mapping containing the key L with a truthy value (a non-empty
string, or an array), `t` returns exactly that value. -/
theorem t_supported_key_truthy (lang : String) (m : List (String × JsVal)) (v : JsVal)
    (hsup : listContainsStr SUPPORTED_LANGS lang = true)
    (hget : jsIndex m lang = some v)
    (hv : truthy v = true) :
    t (LocField.fobj m) lang = v := by
  simp [t, hget, hv]

/-- Witness for `t_supported_key_truthy` at a concrete input. -/
theorem t_supported_key_truthy_witness :
    listContainsStr SUPPORTED_LANGS "en" = true
    ∧ jsIndex [("en", JsVal.vstr "Hello"), ("de", JsVal.vstr "Hallo")] "en" = some (JsVal.vstr "Hello")
    ∧ truthy (JsVal.vstr "Hello") = true
    ∧ t (LocField.fobj [("en", JsVal.vstr "Hello"), ("de", JsVal.vstr "Hallo")]) "en" = JsVal.vstr "Hello" :=
  ⟨rfl, rfl, rfl,
   t_supported_key_truthy "en" [("en", JsVal.vstr "Hello"), ("de", JsVal.vstr "Hallo")]
     (JsVal.vstr "Hello") rfl rfl rfl⟩

/-- Claim C3 (confirmed): `t` is total — an absent field yields the empty
string; a plain string field is returned verbatim; a mapping missing the
requested key but containing `de` yields exactly the `de` value; a
mapping missing both keys yields the empty string.  Never throwing and
never returning undefined is inherent: `t` is a total Lean function into
`JsVal`. -/
theorem t_total_with_de_fallback :
    (∀ lang : String, t LocField.fnull lang = JsVal.vstr "")
    ∧ (∀ s lang : String, t (LocField.fstr s) lang = JsVal.vstr s)
    ∧ (∀ (m : List (String × JsVal)) (lang : String) (d : JsVal),
        jsIndex m lang = Option.none → jsIndex m "de" = some d →
        t (LocField.fobj m) lang = d)
    ∧ (∀ (m : List (String × JsVal)) (lang : String),
        jsIndex m lang = Option.none → jsIndex m "de" = Option.none →
        t (LocField.fobj m) lang = JsVal.vstr "") := by
  refine ⟨fun lang => rfl, fun s lang => rfl, ?_, ?_⟩
  · intro m lang d h1 h2
    cases d with
    | vstr ds =>
      by_cases hds : ds = ""
      · subst hds
        simp [t, h1, lookupDe, h2, truthy]
      · simp [t, h1, lookupDe, h2, truthy, hds]
    | varr items =>
      simp [t, h1, lookupDe, h2, truthy]
  · intro m lang h1 h2
    simp [t, h1, lookupDe, h2]

/-- Witness for `t_total_with_de_fallback` at a concrete input. -/
theorem t_total_with_de_fallback_witness :
    jsIndex [("de", JsVal.vstr "Hallo")] "en" = Option.none
    ∧ jsIndex [("de", JsVal.vstr "Hallo")] "de" = some (JsVal.vstr "Hallo")
    ∧ t (LocField.fobj [("de", JsVal.vstr "Hallo")]) "en" = JsVal.vstr "Hallo" :=
  ⟨rfl, rfl,
   t_total_with_de_fallback.2.2.1 [("de", JsVal.vstr "Hallo")] "en" (JsVal.vstr "Hallo") rfl rfl⟩

/-- A supported language code is one of `de`/`en`, hence non-empty (so
the JS truthiness guards in `resolveInitialLang` cannot reject it). -/
theorem supported_ne_empty (l : String)
    (h : listContainsStr SUPPORTED_LANGS l = true) : (l == "") = false := by
  have h2 : l = "de" ∨ l = "en" := by
    simpa [SUPPORTED_LANGS, listContainsStr] using h
  rcases h2 with rfl | rfl <;> rfl

/-- Claim C2 (confirmed): `resolveInitialLang` realizes exactly the
spec's priority order — query parameter if supported, else persisted
value if supported, else the browser language lowercased and cut to its
first two letters if supported, else the hard default `de` — and its
result is always a supported code, for every combination of inputs (no
error path exists: the function is total). -/
theorem resolveInitialLang_priority (q s b : Option String) :
    resolveInitialLang q s b = resolveInitialLangSpec q s b
    ∧ listContainsStr SUPPORTED_LANGS (resolveInitialLang q s b) = true := by
  have tail : resolveInitialLang Option.none Option.none b
        = resolveInitialLangSpec Option.none Option.none b
      ∧ listContainsStr SUPPORTED_LANGS (resolveInitialLang Option.none Option.none b) = true := by
    cases hb : listContainsStr SUPPORTED_LANGS (browserLang b) with
    | true =>
      constructor
      · simp [resolveInitialLang, resolveInitialLangSpec, pickSupported, jsTruthyOptStr, hb]
      · simpa [resolveInitialLang, jsTruthyOptStr, hb] using hb
    | false =>
      constructor
      · simp [resolveInitialLang, resolveInitialLangSpec, pickSupported, jsTruthyOptStr, hb]
      · have e : resolveInitialLang Option.none Option.none b = "de" := by
          simp [resolveInitialLang, jsTruthyOptStr, hb]
        rw [e]
        rfl
  have stage2 : ∀ s' : Option String,
      resolveInitialLang Option.none s' b = resolveInitialLangSpec Option.none s' b
      ∧ listContainsStr SUPPORTED_LANGS (resolveInitialLang Option.none s' b) = true := by
    intro s'
    cases s' with
    | none => exact tail
    | some sl =>
      cases hs : listContainsStr SUPPORTED_LANGS sl with
      | true =>
        have hne := supported_ne_empty sl hs
        constructor
        · simp [resolveInitialLang, resolveInitialLangSpec, pickSupported, jsTruthyOptStr,
                jsOrEmpty, hs, hne]
        · simpa [resolveInitialLang, jsTruthyOptStr, jsOrEmpty, hs, hne] using hs
      | false =>
        have code_eq : resolveInitialLang Option.none (some sl) b
            = resolveInitialLang Option.none Option.none b := by
          simp [resolveInitialLang, jsTruthyOptStr, jsOrEmpty, hs]
        have spec_eq : resolveInitialLangSpec Option.none (some sl) b
            = resolveInitialLangSpec Option.none Option.none b := by
          simp [resolveInitialLangSpec, pickSupported, hs]
        exact ⟨code_eq.trans (tail.1.trans spec_eq.symm), code_eq ▸ tail.2⟩
  cases q with
  | none => exact stage2 s
  | some ql =>
    cases hq : listContainsStr SUPPORTED_LANGS ql with
    | true =>
      have hne := supported_ne_empty ql hq
      constructor
      · simp [resolveInitialLang, resolveInitialLangSpec, pickSupported, jsTruthyOptStr,
              jsOrEmpty, hq, hne]
      · simpa [resolveInitialLang, jsTruthyOptStr, jsOrEmpty, hq, hne] using hq
    | false =>
      have code_eq : resolveInitialLang (some ql) s b = resolveInitialLang Option.none s b := by
        simp [resolveInitialLang, jsTruthyOptStr, jsOrEmpty, hq]
      have spec_eq : resolveInitialLangSpec (some ql) s b
          = resolveInitialLangSpec Option.none s b := by
        simp [resolveInitialLangSpec, pickSupported, hq]
      exact ⟨code_eq.trans ((stage2 s).1.trans spec_eq.symm), code_eq ▸ (stage2 s).2⟩

/-- Claim C4 (code bug): the request `/../site-secrets/key.txt` against a
server rooted at `/srv/site` joins and normalizes to
`/srv/site-secrets/key.txt` — a location outside the root directory —
yet `serveStatic`'s textual `startsWith(ROOT)` guard accepts it (the
sibling directory's name extends the root's name), so the server
proceeds to read and serve the file instead of answering 403.  This
contradicts the code's own `Security: prevent path traversal` intent
(and, for contrast, the final conjunct shows a plain deep traversal is
correctly refused). -/
theorem serveStatic_traversal_escape :
    outsideRoot "/srv/site" "/../site-secrets/key.txt" = true
    ∧ serveStatic "/srv/site" "/../site-secrets/key.txt"
        = StaticResult.readFileAt "/srv/site-secrets/key.txt"
    ∧ serveStatic "/srv/site" "/../../etc/passwd" = StaticResult.forbidden :=
  ⟨rfl, rfl, rfl⟩

/-- Claim C8 (confirmed): the PDF export uses the `lang` query parameter
exactly when it is a supported code and falls back to `de` when it is
missing or unsupported; the success response's attachment filename is
`CV_Mathis_Thomsen_<LANG>.pdf` with the uppercased export language, so
`?lang=en` yields a filename ending in `_EN.pdf` and `?lang=xx` one
ending in `_DE.pdf`. -/
theorem handlePdfExport_lang_and_filename :
    (∀ l : String, listContainsStr SUPPORTED_LANGS l = true → exportLang (some l) = l)
    ∧ (∀ l : String, listContainsStr SUPPORTED_LANGS l = false → exportLang (some l) = "de")
    ∧ exportLang Option.none = "de"
    ∧ (∀ l : String, exportFilename l = "CV_Mathis_Thomsen_" ++ strToUpper l ++ ".pdf")
    ∧ exportContentDisposition (some "en") = "attachment; filename=\"CV_Mathis_Thomsen_EN.pdf\""
    ∧ exportContentDisposition (some "xx") = "attachment; filename=\"CV_Mathis_Thomsen_DE.pdf\""
    ∧ strEndsWith "_EN.pdf" (exportFilename (exportLang (some "en"))) = true
    ∧ strEndsWith "_DE.pdf" (exportFilename (exportLang (some "xx"))) = true := by
  refine ⟨?_, ?_, rfl, fun l => rfl, rfl, rfl, rfl, rfl⟩
  · intro l h
    simp [exportLang, h]
  · intro l h
    simp [exportLang, h]

/-- Witness for `handlePdfExport_lang_and_filename` at concrete inputs. -/
theorem handlePdfExport_lang_and_filename_witness :
    listContainsStr SUPPORTED_LANGS "en" = true
    ∧ exportLang (some "en") = "en"
    ∧ listContainsStr SUPPORTED_LANGS "xx" = false
    ∧ exportLang (some "xx") = "de"
    ∧ exportFilename "en" = "CV_Mathis_Thomsen_" ++ strToUpper "en" ++ ".pdf" :=
  ⟨rfl, handlePdfExport_lang_and_filename.1 "en" rfl, rfl,
   handlePdfExport_lang_and_filename.2.1 "xx" rfl,
   handlePdfExport_lang_and_filename.2.2.2.1 "en"⟩

/-- Claim C9 (confirmed): `formatDate` yields the locale "present" token
(`heute` for `de`, `present` otherwise) for an absent or empty value and
returns a year-only string (one with no dash-separated month part)
unchanged; `formatPeriod` is the two resolved dates joined by the spaced
en dash, so `formatPeriod("2020-03", null, "en")` ends in `present` and
`formatPeriod("2020-03", null, "de")` ends in `heute`. -/
theorem formatDate_period_tokens :
    (∀ lang : String, formatDate Option.none lang = (if lang == "de" then "heute" else "present"))
    ∧ (∀ lang : String, formatDate (some "") lang = (if lang == "de" then "heute" else "present"))
    ∧ (∀ s lang : String, (s == "") = false → strSplitChar '-' s = [s] →
        formatDate (some s) lang = s)
    ∧ (∀ (start stop : Option String) (lang : String),
        formatPeriod start stop lang = formatDate start lang ++ " – " ++ formatDate stop lang)
    ∧ strEndsWith "present" (formatPeriod (some "2020-03") Option.none "en") = true
    ∧ strEndsWith "heute" (formatPeriod (some "2020-03") Option.none "de") = true := by
  refine ⟨fun lang => rfl, fun lang => rfl, ?_, fun start stop lang => rfl, rfl, rfl⟩
  intro s lang hne hsplit
  simp [formatDate, hne, hsplit]

/-- Witness for `formatDate_period_tokens` at a concrete input. -/
theorem formatDate_period_tokens_witness :
    ("2020" == "") = false
    ∧ strSplitChar '-' "2020" = ["2020"]
    ∧ formatDate (some "2020") "en" = "2020" :=
  ⟨rfl, rfl, formatDate_period_tokens.2.2.1 "2020" "en" rfl rfl⟩

/-- No renderer in the dispatch table produces a node carrying the
disclaimer class: a disclaimer can only come from the unconditional
append in `renderDetail`. -/
theorem renderBlock_not_disclaimer (lang : String) (b : Block) (n : Node)
    (h : renderBlock lang b = some n) : isDisclaimerNode n = false := by
  cases b <;> simp [renderBlock] at h <;> subst h <;> rfl

/-- Every authored (wrapped) block of the detail body is a
non-disclaimer. -/
theorem renderSections_no_disclaimer (lang : String) (blocks : List Block) :
    ∀ n ∈ renderSections lang blocks, isDisclaimerWrap n = false := by
  intro n hn
  simp only [renderSections, List.mem_filterMap] at hn
  obtain ⟨b, _, hm⟩ := hn
  rcases Option.map_eq_some'.mp hm with ⟨m, hren, hw⟩
  subst hw
  simp [wrapBlock, isDisclaimerWrap, renderBlock_not_disclaimer lang b m hren]

theorem renderSections_countP_disclaimer (lang : String) (blocks : List Block) :
    List.countP isDisclaimerWrap (renderSections lang blocks) = 0 := by
  apply List.countP_eq_zero.mpr
  intro n hn
  simp [renderSections_no_disclaimer lang blocks n hn]

theorem dropWhile_append_of_forall {α : Type} (p : α → Bool) (l r : List α)
    (h : ∀ x ∈ l, p x = true) :
    List.dropWhile p (l ++ r) = List.dropWhile p r := by
  induction l with
  | nil => rfl
  | cons x xs ih =>
    simp only [List.cons_append, List.dropWhile_cons, h x (List.mem_cons_self x xs), if_true]
    exact ih (fun y hy => h y (List.mem_cons_of_mem x hy))

theorem isDisclaimerWrap_disclaimer (lang : String) :
    isDisclaimerWrap (wrapBlock (renderDisclaimer lang)) = true := rfl

/-- Claim C5 (confirmed): the detail body contains exactly one disclaimer
block when the record is confidential and none otherwise, and when
present the disclaimer sits after every authored content block (dropping
the leading non-disclaimers leaves exactly the single trailing
disclaimer), for every section list, including the empty one. -/
theorem renderDetail_confidential_disclaimer (proj : Project) (lang : String) :
    List.countP isDisclaimerWrap (renderDetailBody proj lang)
        = (if proj.confidential then 1 else 0)
    ∧ List.dropWhile (fun n => !isDisclaimerWrap n) (renderDetailBody proj lang)
        = (if proj.confidential then [wrapBlock (renderDisclaimer lang)] else []) := by
  have hall : ∀ n ∈ renderSections lang proj.sections, (!isDisclaimerWrap n) = true := by
    intro n hn
    simp [renderSections_no_disclaimer lang proj.sections n hn]
  constructor
  · rw [renderDetailBody, List.countP_append, renderSections_countP_disclaimer]
    cases proj.confidential <;>
      simp [List.countP_cons, isDisclaimerWrap_disclaimer]
  · rw [renderDetailBody, dropWhile_append_of_forall _ _ _ hall]
    cases proj.confidential <;>
      simp [List.dropWhile_cons, isDisclaimerWrap_disclaimer]

/-- Claim C6 (confirmed): a block whose type string lies outside the
known set renders to null and is dropped by the detail renderer — the
body of a section list containing it is exactly the body of the same
list without it, all known-type blocks rendering in source order, with
no error path (the render functions are total). -/
theorem renderDetail_unknown_block_skipped (lang ty : String) (xs ys : List Block)
    (hty : listContainsStr knownBlockTypes ty = false) :
    renderBlock lang (Block.other ty) = Option.none
    ∧ renderSections lang (xs ++ Block.other ty :: ys) = renderSections lang (xs ++ ys) := by
  refine ⟨rfl, ?_⟩
  simp [renderSections, List.filterMap_append, renderBlock]

/-- Witness for `renderDetail_unknown_block_skipped` at a concrete
input. -/
theorem renderDetail_unknown_block_skipped_witness :
    listContainsStr knownBlockTypes "video" = false
    ∧ (renderBlock "de" (Block.other "video") = Option.none
       ∧ renderSections "de"
           ([Block.text (LocField.fstr "Intro")] ++ Block.other "video"
              :: [Block.insight (LocField.fstr "Aha")])
         = renderSections "de"
             ([Block.text (LocField.fstr "Intro")] ++ [Block.insight (LocField.fstr "Aha")])) :=
  ⟨rfl,
   renderDetail_unknown_block_skipped "de" "video"
     [Block.text (LocField.fstr "Intro")] [Block.insight (LocField.fstr "Aha")] rfl⟩

/-- Claim C7 (confirmed): for a language code outside the supported set,
both engines' `setLang` are complete no-ops — active language, persisted
storage, document language attribute, toggle-button states, rendered DOM
and event trace are all left exactly as they were, and in particular no
render-completion or language-changed event is dispatched. -/
theorem setLang_unsupported_noop (lang : String)
    (h : listContainsStr SUPPORTED_LANGS lang = false)
    (cvSt : CvPageState) (toggleExists : Bool) (pSt : PortfolioPageState) :
    setLangCv cvSt toggleExists lang = cvSt ∧ setLangPortfolio pSt lang = pSt := by
  constructor
  · simp [setLangCv, h]
  · simp [setLangPortfolio, h]

def cvStateSample : CvPageState :=
  { activeLang := "de", storedLang := Option.none, docLang := "de",
    toggleButtons := [⟨"de", "true", "Deutsch aktiv"⟩, ⟨"en", "false", "Switch to English"⟩],
    cvDataLoaded := true, renderedLang := some "de", events := ["cv-rendered"] }

def portfolioStateSample : PortfolioPageState :=
  { activeLang := "en", storedLang := some "en", docLang := "en",
    toggleButtons := [⟨"de", "false", "Auf Deutsch wechseln"⟩, ⟨"en", "true", "Switch to English"⟩],
    dataLoaded := true, overviewMounted := true, detailMounted := false,
    renderedOverviewLang := some "en", renderedDetailLang := Option.none,
    events := ["portfolio-rendered"] }

/-- Witness for `setLang_unsupported_noop` at a concrete input. -/
theorem setLang_unsupported_noop_witness :
    listContainsStr SUPPORTED_LANGS "fr" = false
    ∧ (setLangCv cvStateSample true "fr" = cvStateSample
       ∧ setLangPortfolio portfolioStateSample "fr" = portfolioStateSample) :=
  ⟨rfl, setLang_unsupported_noop "fr" rfl cvStateSample true portfolioStateSample⟩

/-- Claim C10 (confirmed): in a rendered timeline phase entry, the phase
number element carries `Phase ` prefixed to the localized label exactly
when that label is a non-empty all-digit string (and the label verbatim
otherwise), and the localized in-progress badge (`In Arbeit` for de,
`In Progress` otherwise) is present exactly when the phase has
`wip: true`.  A timeline block renders one such entry per phase, in
order, by definition of `renderTimeline`. -/
theorem renderTimeline_phase_labels (phase : PhaseItem) (lang : String) :
    childTextsWithClass "cs-timeline__phase-num" (renderPhaseEntry lang phase)
      = [if isAllDigits (jsShow (t phase.phase lang))
         then "Phase " ++ jsShow (t phase.phase lang)
         else jsShow (t phase.phase lang)]
    ∧ childTextsWithClass "cs-timeline__phase-wip-badge" (renderPhaseEntry lang phase)
      = (if phase.wip
         then [if lang == "de" then "In Arbeit" else "In Progress"]
         else []) := by
  cases hw : phase.wip <;>
    simp [renderPhaseEntry, childTextsWithClass, el, nodeClass, nodeTextChild, hw]
